import Mathlib

/-!
Verification of the per-frame simulation core of the coin-collector app
(src/src/app.ts) as a shallow embedding.  Scalars are rationals; the
external Babylon collaborators (collision-resolved moves, mesh
intersection tests, the forward vector derived from the yaw rotation)
are parameters of the step functions.
-/

namespace CoinCollector

/-- A 3D vector with rational components (Babylon Vector3). -/
structure Vec3 where
  x : ℚ
  y : ℚ
  z : ℚ
deriving DecidableEq, Repr

/-- Componentwise addition (Vector3.add). -/
def Vec3.add (u v : Vec3) : Vec3 :=
  ⟨u.x + v.x, u.y + v.y, u.z + v.z⟩

/-- Scalar multiplication (Vector3.scale). -/
def Vec3.scale (u : Vec3) (s : ℚ) : Vec3 :=
  ⟨u.x * s, u.y * s, u.z * s⟩

/-- Gravity acceleration vector: new Vector3(0, -9.81, 0). -/
def gravity : Vec3 := ⟨0, -981/100, 0⟩

/-- jumpForce = 4. -/
def jumpForce : ℚ := 4

/-- playerWalkSpeed = 0.03. -/
def playerWalkSpeed : ℚ := 3/100

/-- playerRunSpeed = 0.1. -/
def playerRunSpeed : ℚ := 1/10

/-- playerSpeedBackwards = 0.01. -/
def playerSpeedBackwards : ℚ := 1/100

/-- playerRotationSpeed = 0.06. -/
def playerRotationSpeed : ℚ := 6/100

/-- followDistance = 10 (updateCamera). -/
def followDistance : ℚ := 10

/-- cameraHeight = 5 (updateCamera). -/
def cameraHeight : ℚ := 5

/-- Landing threshold in applyGravityAndJump: position.y <= 0.1. -/
def groundThreshold : ℚ := 1/10

/-- The keyStatus record: booleans for w, s, a, d, b, Shift and the
space bar, written to by the key handlers and read by the frame loop. -/
structure KeyStatus where
  w : Bool
  s : Bool
  a : Bool
  d : Bool
  b : Bool
  shift : Bool
  space : Bool
deriving DecidableEq, Repr

/-- The player mesh state the core reads and writes: world position and
the yaw angle about the vertical axis (player.rotate(Vector3.Up(), a)
adds a to the yaw; player.forward is derived from it externally). -/
structure Player where
  position : Vec3
  yaw : ℚ
deriving DecidableEq, Repr

/-- The FreeCamera state the core writes: position and look-at target. -/
structure Camera where
  position : Vec3
  target : Vec3
deriving DecidableEq, Repr

/-- A coin sphere: its index in the spawn loop and its position. -/
structure Pickup where
  id : ℕ
  position : Vec3
deriving DecidableEq, Repr

/-- The locomotion/animation category selected by the per-frame callback
branch structure (samba, walk-back, walk or run, idle). -/
inductive LocomotionMode where
  | Idle
  | WalkForward
  | WalkBackward
  | RunForward
  | Dance
deriving DecidableEq, Repr

/-- Result of one run of the onBeforeRenderObservable callback. -/
structure LocoResult where
  player : Player
  isGrounded : Bool
  velocity : Vec3
deriving DecidableEq, Repr

/-- Yaw after the rotation branch: keyStatus.a rotates by
-playerRotationSpeed, keyStatus.d by +playerRotationSpeed; both may
apply in the same frame. -/
def yawAfterRotation (keys : KeyStatus) (yaw : ℚ) : ℚ :=
  let y1 := if keys.a then yaw - playerRotationSpeed else yaw
  if keys.d then y1 + playerRotationSpeed else y1

/-- The speed assigned inside the movement branch: backward wins only
when w is up, otherwise w selects run or walk speed by Shift.  (Under
keys.w or keys.s one of the two branches always fires, so the final 0
arm is unreachable there.) -/
def moveSpeed (keys : KeyStatus) : ℚ :=
  if keys.s && !keys.w then -playerSpeedBackwards
  else if keys.w then (if keys.shift then playerRunSpeed else playerWalkSpeed)
  else 0

/-- The locomotion mode selected by the callback branch structure. -/
def locomotionMode (keys : KeyStatus) : LocomotionMode :=
  if keys.b then LocomotionMode.Dance
  else if keys.s && !keys.w then LocomotionMode.WalkBackward
  else if keys.w then
    (if keys.shift then LocomotionMode.RunForward else LocomotionMode.WalkForward)
  else LocomotionMode.Idle

/-- One run of the onBeforeRenderObservable callback of loadModel.
forwardOf maps a yaw to the forward unit vector (external geometry);
moveResolve is moveWithCollisions (current position, displacement to
resolved new position).  When keyStatus.b is pressed the callback
returns early: no rotation, no movement, no jump check.  Otherwise it
rotates, moves when w or s is down, and finally sets the jump impulse
when space is down and the player is grounded. -/
def locomotionStep (forwardOf : ℚ → Vec3) (moveResolve : Vec3 → Vec3 → Vec3)
    (keys : KeyStatus) (p : Player) (grounded : Bool) (vel : Vec3) : LocoResult :=
  if keys.b then
    { player := p, isGrounded := grounded, velocity := vel }
  else
    let yaw2 := yawAfterRotation keys p.yaw
    let p1 : Player := { p with yaw := yaw2 }
    let p2 : Player :=
      if keys.w || keys.s then
        { p1 with position := moveResolve p1.position ((forwardOf yaw2).scale (moveSpeed keys)) }
      else p1
    let jumped := keys.space && grounded
    { player := p2,
      isGrounded := if jumped then false else grounded,
      velocity := if jumped then { vel with y := jumpForce } else vel }

/-- Result of applyGravityAndJump. -/
structure GravResult where
  player : Option Player
  isGrounded : Bool
  velocity : Vec3
deriving DecidableEq, Repr

/-- Velocity after the gravity branch: when not grounded,
velocity := velocity + gravity * deltaTime. -/
def velAfterGravity (grounded : Bool) (vel : Vec3) (dt : ℚ) : Vec3 :=
  if !grounded then vel.add (gravity.scale dt) else vel

/-- applyGravityAndJump: guarded on the player being present; applies
gravity when airborne, moves by velocity * deltaTime through
moveWithCollisions, then the height-threshold landing test
(position.y <= 0.1 sets isGrounded and zeroes velocity.y, with no check
of the velocity sign). -/
def applyGravityAndJump (moveResolve : Vec3 → Vec3 → Vec3) (dt : ℚ)
    (player : Option Player) (grounded : Bool) (vel : Vec3) : GravResult :=
  match player with
  | none => { player := none, isGrounded := grounded, velocity := vel }
  | some p =>
    let vel1 := velAfterGravity grounded vel dt
    let pos1 := moveResolve p.position (vel1.scale dt)
    { player := some { p with position := pos1 },
      isGrounded := if pos1.y ≤ groundThreshold then true else grounded,
      velocity := if pos1.y ≤ groundThreshold then { vel1 with y := 0 } else vel1 }

/-- updateCamera: guarded on the player being present; the camera is
placed at player.position + forward * (-followDistance) with the
vertical component replaced by the constant cameraHeight, and the
look-at target is set to player.position. -/
def updateCamera (forwardOf : ℚ → Vec3) (player : Option Player) (cam : Camera) : Camera :=
  match player with
  | none => cam
  | some p =>
    let backward := (forwardOf p.yaw).scale (-followDistance)
    let cameraPosition := p.position.add backward
    { position := ⟨cameraPosition.x, cameraHeight, cameraPosition.z⟩,
      target := p.position }

/-- updateGame: guarded on the player being present; rebuilds
this.spheres as the filter of the current list keeping exactly the
spheres that do not intersect the player mesh. -/
def updateGame (player : Option Player) (intersectsPlayer : Pickup → Bool)
    (spheres : List Pickup) : List Pickup :=
  match player with
  | none => spheres
  | some _ => spheres.filter (fun sph => !intersectsPlayer sph)

/-- The whole mutable state the render loop touches. -/
structure SimState where
  player : Option Player
  isGrounded : Bool
  velocity : Vec3
  camera : Camera
  spheres : List Pickup
deriving DecidableEq, Repr

/-- The locomotion part of scene.render(): the onBeforeRenderObservable
callback is registered only after loadModel resolves, so it runs
exactly when a player is present. -/
def locomotionPhase (forwardOf : ℚ → Vec3) (moveResolve : Vec3 → Vec3 → Vec3)
    (keys : KeyStatus) (st : SimState) : SimState :=
  match st.player with
  | none => st
  | some p =>
    let r := locomotionStep forwardOf moveResolve keys p st.isGrounded st.velocity
    { st with player := some r.player, isGrounded := r.isGrounded, velocity := r.velocity }

/-- One iteration of engine.runRenderLoop: scene.render() (which fires
the locomotion callback), then updateCamera, then applyGravityAndJump,
then updateGame — in exactly that source order. -/
def frame (forwardOf : ℚ → Vec3) (moveResolve : Vec3 → Vec3 → Vec3)
    (intersectsPlayer : Pickup → Bool) (dt : ℚ) (keys : KeyStatus)
    (st : SimState) : SimState :=
  let st1 := locomotionPhase forwardOf moveResolve keys st
  let cam2 := updateCamera forwardOf st1.player st1.camera
  let g3 := applyGravityAndJump moveResolve dt st1.player st1.isGrounded st1.velocity
  let spheres4 := updateGame g3.player intersectsPlayer st1.spheres
  { player := g3.player, isGrounded := g3.isGrounded, velocity := g3.velocity,
    camera := cam2, spheres := spheres4 }

/-- Modelled from the spec: the per-frame order the spec states, namely
Locomotion State Machine, then Vertical Motion Integrator, then Camera
Follow Rule, then Pickup Field sweep — for comparison with the
source-order frame above. -/
def frameSpecOrder (forwardOf : ℚ → Vec3) (moveResolve : Vec3 → Vec3 → Vec3)
    (intersectsPlayer : Pickup → Bool) (dt : ℚ) (keys : KeyStatus)
    (st : SimState) : SimState :=
  let st1 := locomotionPhase forwardOf moveResolve keys st
  let g2 := applyGravityAndJump moveResolve dt st1.player st1.isGrounded st1.velocity
  let st2 : SimState :=
    { st1 with player := g2.player, isGrounded := g2.isGrounded, velocity := g2.velocity }
  let cam3 := updateCamera forwardOf st2.player st2.camera
  let spheres4 := updateGame st2.player intersectsPlayer st2.spheres
  { st2 with camera := cam3, spheres := spheres4 }

/-! Concrete collaborators and fixtures used by witnesses and
counterexamples. -/

/-- A collision resolver with nothing in the way: the move lands at
position + displacement. -/
def addMove : Vec3 → Vec3 → Vec3 := fun p d => p.add d

/-- A collision resolver that blocks all motion. -/
def blockedMove : Vec3 → Vec3 → Vec3 := fun p _ => p

/-- A forward map that always faces +Z. -/
def forwardZ : ℚ → Vec3 := fun _ => ⟨0, 0, 1⟩

/-- An intersection test that never fires. -/
def noIntersect : Pickup → Bool := fun _ => false

/-- An intersection test that always fires. -/
def intersectAll : Pickup → Bool := fun _ => true

/-- The zero vector. -/
def v0 : Vec3 := ⟨0, 0, 0⟩

/-- A player standing at the origin facing yaw 0. -/
def playerOrigin : Player := { position := v0, yaw := 0 }

/-- A camera at the origin. -/
def cam0 : Camera := { position := v0, target := v0 }

/-- Key snapshot: only the dance key and the jump key are down. -/
def keysDanceJump : KeyStatus :=
  { w := false, s := false, a := false, d := false, b := true, shift := false, space := true }

/-- Key snapshot: only the jump key is down. -/
def keysJumpOnly : KeyStatus :=
  { w := false, s := false, a := false, d := false, b := false, shift := false, space := true }

/-- Key snapshot: nothing is down. -/
def keysNone : KeyStatus :=
  { w := false, s := false, a := false, d := false, b := false, shift := false, space := false }

/-- Key snapshot: forward and backward both down. -/
def keysBothWS : KeyStatus :=
  { w := true, s := true, a := false, d := false, b := false, shift := false, space := false }

/-- A grounded state with the player at the origin. -/
def stGroundedOrigin : SimState :=
  { player := some playerOrigin, isGrounded := true, velocity := v0,
    camera := cam0, spheres := [] }

/-- An airborne state with the player 5 units up. -/
def stAirborne5 : SimState :=
  { player := some { position := ⟨0, 5, 0⟩, yaw := 0 }, isGrounded := false,
    velocity := v0, camera := cam0, spheres := [] }

/-- A sample pickup. -/
def pickup0 : Pickup := { id := 0, position := ⟨1, 1/4, 1⟩ }

/-- A player standing 2 units above ground. -/
def pFalling : Player := { position := ⟨0, 2, 0⟩, yaw := 0 }

/-- A player whose height is already inside the landing threshold. -/
def pLow : Player := { position := ⟨0, 1/20, 0⟩, yaw := 0 }

/-- An upward unit velocity. -/
def velUp : Vec3 := ⟨0, 1, 0⟩

/-!  Claims. -/

/-- C1, counterexample: with the dance key and the jump key both down
and the avatar grounded, the callback returns at the dance branch, so
the jump check is skipped: the avatar stays grounded and its vertical
velocity is not set to the jump force. -/
theorem c1_counterexample :
    (locomotionStep forwardZ addMove keysDanceJump playerOrigin true v0).isGrounded = true ∧
    (locomotionStep forwardZ addMove keysDanceJump playerOrigin true v0).velocity.y ≠ jumpForce := by
  constructor
  · rfl
  · norm_num [locomotionStep, keysDanceJump, v0, jumpForce]

/-- C1, amended: for every frame in which the jump key is pressed, the
avatar is grounded, and the dance key is not pressed, the jump impulse
is applied (vertical velocity set to the jump force, grounded flag
cleared) regardless of the state of every other key, hence regardless of
which non-dance LocomotionMode was selected that frame. -/
theorem c1_jump_requires_no_dance (forwardOf : ℚ → Vec3) (moveResolve : Vec3 → Vec3 → Vec3)
    (keys : KeyStatus) (p : Player) (vel : Vec3)
    (hb : keys.b = false) (hsp : keys.space = true) :
    (locomotionStep forwardOf moveResolve keys p true vel).isGrounded = false ∧
    (locomotionStep forwardOf moveResolve keys p true vel).velocity =
      { vel with y := jumpForce } := by
  simp [locomotionStep, hb, hsp]

/-- C1, witness for the amended theorem at a concrete grounded frame
with only the jump key down. -/
theorem c1_jump_requires_no_dance_witness :
    (locomotionStep forwardZ addMove keysJumpOnly playerOrigin true v0).isGrounded = false ∧
    (locomotionStep forwardZ addMove keysJumpOnly playerOrigin true v0).velocity =
      { v0 with y := jumpForce } :=
  c1_jump_requires_no_dance forwardZ addMove keysJumpOnly playerOrigin v0 rfl rfl

/-- C2, counterexample: the render loop runs updateCamera before
applyGravityAndJump, so on a frame where the integrator moves the avatar
the camera target differs from what the spec order (integrator before
camera) would produce: from 5 units up with no input, the code frame
aims the camera at height 5 while the spec-order frame aims it at the
post-fall height. -/
theorem c2_counterexample :
    (frame forwardZ addMove noIntersect 1 keysNone stAirborne5).camera.target ≠
    (frameSpecOrder forwardZ addMove noIntersect 1 keysNone stAirborne5).camera.target := by
  norm_num [frame, frameSpecOrder, locomotionPhase, locomotionStep, updateCamera,
    applyGravityAndJump, updateGame, velAfterGravity, Vec3.add, Vec3.scale,
    stAirborne5, keysNone, forwardZ, addMove, noIntersect, v0, cam0, gravity,
    groundThreshold, jumpForce]

/-- C2, amended: within every frame the simulation components execute
in the order Locomotion State Machine, then Camera Follow Rule, then
Vertical Motion Integrator, then Pickup Field sweep; in particular the
camera is computed from the post-locomotion, pre-integrator avatar
state, so its look-at target is the avatar position before the vertical
move of that frame. -/
theorem c2_frame_order_amended (forwardOf : ℚ → Vec3) (moveResolve : Vec3 → Vec3 → Vec3)
    (intersectsPlayer : Pickup → Bool) (dt : ℚ) (keys : KeyStatus) (st : SimState)
    (p : Player) (hp : st.player = some p) :
    (frame forwardOf moveResolve intersectsPlayer dt keys st =
      (let st1 := locomotionPhase forwardOf moveResolve keys st
       let st2 : SimState := { st1 with camera := updateCamera forwardOf st1.player st1.camera }
       let g : GravResult := applyGravityAndJump moveResolve dt st2.player st2.isGrounded st2.velocity
       let st3 : SimState :=
         { st2 with player := g.player, isGrounded := g.isGrounded, velocity := g.velocity }
       { st3 with spheres := updateGame st3.player intersectsPlayer st3.spheres })) ∧
    (frame forwardOf moveResolve intersectsPlayer dt keys st).camera.target =
      (locomotionStep forwardOf moveResolve keys p st.isGrounded st.velocity).player.position := by
  constructor
  · rfl
  · simp [frame, locomotionPhase, hp, updateCamera]

/-- C2, witness for the amended theorem at a concrete grounded state. -/
theorem c2_frame_order_amended_witness :
    (frame forwardZ addMove noIntersect 1 keysNone stGroundedOrigin).camera.target =
      (locomotionStep forwardZ addMove keysNone playerOrigin
        stGroundedOrigin.isGrounded stGroundedOrigin.velocity).player.position :=
  (c2_frame_order_amended forwardZ addMove noIntersect 1 keysNone stGroundedOrigin
    playerOrigin rfl).2

/-- C3: when no avatar is present, the Vertical Motion Integrator, the
Camera Follow Rule and the Pickup Field sweep leave grounded flag,
velocity, camera and pickup collection unchanged and return normally. -/
theorem c3_no_avatar_noop (moveResolve : Vec3 → Vec3 → Vec3) (dt : ℚ)
    (grounded : Bool) (vel : Vec3) (forwardOf : ℚ → Vec3) (cam : Camera)
    (intersectsPlayer : Pickup → Bool) (spheres : List Pickup) :
    applyGravityAndJump moveResolve dt none grounded vel =
      { player := none, isGrounded := grounded, velocity := vel } ∧
    updateCamera forwardOf none cam = cam ∧
    updateGame none intersectsPlayer spheres = spheres :=
  ⟨rfl, rfl, rfl⟩

/-- C4: on any integrator frame in which the avatar is falling (vertical
velocity negative after the gravity update) and the collision-aware move
leaves its height at or below the threshold 0.1, the grounded flag
becomes true and the vertical velocity is set to exactly 0 on that
frame. -/
theorem c4_landing_grounds_and_zeroes (moveResolve : Vec3 → Vec3 → Vec3) (dt : ℚ)
    (p : Player) (grounded : Bool) (vel : Vec3)
    (hfall : (velAfterGravity grounded vel dt).y < 0)
    (hland : (moveResolve p.position ((velAfterGravity grounded vel dt).scale dt)).y ≤
      groundThreshold) :
    (applyGravityAndJump moveResolve dt (some p) grounded vel).isGrounded = true ∧
    (applyGravityAndJump moveResolve dt (some p) grounded vel).velocity.y = 0 := by
  simp [applyGravityAndJump, hland]

/-- C4, witness: an avatar 2 units up, airborne with zero velocity, over
one second of gravity falls below the threshold and lands. -/
theorem c4_landing_grounds_and_zeroes_witness :
    (applyGravityAndJump addMove 1 (some pFalling) false v0).isGrounded = true ∧
    (applyGravityAndJump addMove 1 (some pFalling) false v0).velocity.y = 0 :=
  c4_landing_grounds_and_zeroes addMove 1 pFalling false v0
    (by norm_num [velAfterGravity, v0, gravity, Vec3.add, Vec3.scale])
    (by norm_num [velAfterGravity, addMove, pFalling, v0, gravity, Vec3.add, Vec3.scale,
      groundThreshold])

/-- C5: the locomotion callback changes the vertical velocity or the
grounded flag only when the jump key is observed pressed while grounded,
and then it sets the velocity y component to the jump force and clears
the grounded flag; in every airborne frame, key held or not, it applies
no further impulse and leaves the avatar airborne. -/
theorem c5_jump_once_per_grounded_press (forwardOf : ℚ → Vec3)
    (moveResolve : Vec3 → Vec3 → Vec3) (keys : KeyStatus) (p : Player)
    (grounded : Bool) (vel : Vec3) :
    (grounded = false →
      (locomotionStep forwardOf moveResolve keys p grounded vel).velocity = vel ∧
      (locomotionStep forwardOf moveResolve keys p grounded vel).isGrounded = false) ∧
    ((locomotionStep forwardOf moveResolve keys p grounded vel).velocity ≠ vel ∨
     (locomotionStep forwardOf moveResolve keys p grounded vel).isGrounded ≠ grounded →
      keys.space = true ∧ grounded = true ∧
      (locomotionStep forwardOf moveResolve keys p grounded vel).isGrounded = false ∧
      (locomotionStep forwardOf moveResolve keys p grounded vel).velocity =
        { vel with y := jumpForce }) := by
  cases hb : keys.b <;> cases hsp : keys.space <;> cases hgr : grounded <;>
    simp [locomotionStep, hb, hsp]

/-- C5, witness: an airborne frame with the jump key still held applies
no impulse and stays airborne. -/
theorem c5_jump_once_per_grounded_press_witness :
    (locomotionStep forwardZ addMove keysJumpOnly playerOrigin false v0).velocity = v0 ∧
    (locomotionStep forwardZ addMove keysJumpOnly playerOrigin false v0).isGrounded = false :=
  (c5_jump_once_per_grounded_press forwardZ addMove keysJumpOnly playerOrigin false v0).1 rfl

/-- C6: whenever the dance key is pressed, the callback returns before
the rotation and movement branches, so the avatar state (yaw and
position) is unchanged, regardless of every other key. -/
theorem c6_dance_modal_exclusivity (forwardOf : ℚ → Vec3)
    (moveResolve : Vec3 → Vec3 → Vec3) (keys : KeyStatus) (p : Player)
    (grounded : Bool) (vel : Vec3) (hb : keys.b = true) :
    (locomotionStep forwardOf moveResolve keys p grounded vel).player = p := by
  simp [locomotionStep, hb]

/-- C6, witness: the dance-and-jump snapshot leaves the avatar where it
stood. -/
theorem c6_dance_modal_exclusivity_witness :
    (locomotionStep forwardZ addMove keysDanceJump playerOrigin false v0).player =
      playerOrigin :=
  c6_dance_modal_exclusivity forwardZ addMove keysDanceJump playerOrigin false v0 rfl

/-- C7: with both forward and backward keys down and dance up, the
forward branch wins: the selected mode is not WalkBackward but
RunForward or WalkForward by the sprint modifier, the applied speed is
the run speed with sprint and the walk speed without, and the avatar is
moved by the collision-resolved forward displacement at that speed. -/
theorem c7_forward_priority (forwardOf : ℚ → Vec3) (moveResolve : Vec3 → Vec3 → Vec3)
    (keys : KeyStatus) (p : Player) (grounded : Bool) (vel : Vec3)
    (hw : keys.w = true) (hs : keys.s = true) (hb : keys.b = false) :
    locomotionMode keys ≠ LocomotionMode.WalkBackward ∧
    locomotionMode keys =
      (if keys.shift then LocomotionMode.RunForward else LocomotionMode.WalkForward) ∧
    moveSpeed keys = (if keys.shift then playerRunSpeed else playerWalkSpeed) ∧
    (locomotionStep forwardOf moveResolve keys p grounded vel).player.position =
      moveResolve p.position
        ((forwardOf (yawAfterRotation keys p.yaw)).scale (moveSpeed keys)) := by
  refine ⟨?_, ?_, ?_, ?_⟩ <;>
    cases hsh : keys.shift <;>
    simp [locomotionMode, moveSpeed, locomotionStep, hw, hs, hb, hsh]

/-- C7, witness for the forward-and-backward snapshot without sprint. -/
theorem c7_forward_priority_witness :
    locomotionMode keysBothWS ≠ LocomotionMode.WalkBackward ∧
    locomotionMode keysBothWS =
      (if keysBothWS.shift then LocomotionMode.RunForward else LocomotionMode.WalkForward) ∧
    moveSpeed keysBothWS = (if keysBothWS.shift then playerRunSpeed else playerWalkSpeed) ∧
    (locomotionStep forwardZ addMove keysBothWS playerOrigin true v0).player.position =
      addMove playerOrigin.position
        ((forwardZ (yawAfterRotation keysBothWS playerOrigin.yaw)).scale (moveSpeed keysBothWS)) :=
  c7_forward_priority forwardZ addMove keysBothWS playerOrigin true v0 rfl rfl rfl

/-- C8: the pickup sweep rebuilds the live set as a fresh filter of the
current list, so the live count never increases, every pickup that
intersects the avatar this frame is absent from the next live set, and
a pickup absent from the live set never reappears. -/
theorem c8_pickup_removal_monotone (pl : Player) (intersectsPlayer : Pickup → Bool)
    (l : List Pickup) :
    updateGame (some pl) intersectsPlayer l = l.filter (fun sph => !intersectsPlayer sph) ∧
    (updateGame (some pl) intersectsPlayer l).length ≤ l.length ∧
    (∀ sph : Pickup, intersectsPlayer sph = true →
      sph ∉ updateGame (some pl) intersectsPlayer l) ∧
    (∀ sph : Pickup, sph ∉ l → sph ∉ updateGame (some pl) intersectsPlayer l) := by
  refine ⟨rfl, List.length_filter_le _ _, ?_, ?_⟩
  · intro sph hint hmem
    rcases List.mem_filter.mp hmem with ⟨_, hkeep⟩
    simp [hint] at hkeep
  · intro sph hnot hmem
    exact hnot (List.mem_filter.mp hmem).1

/-- C8, witness: a single intersecting pickup is gone after the sweep
and the count does not grow. -/
theorem c8_pickup_removal_monotone_witness :
    (updateGame (some playerOrigin) intersectAll [pickup0]).length ≤ [pickup0].length ∧
    pickup0 ∉ updateGame (some playerOrigin) intersectAll [pickup0] :=
  ⟨(c8_pickup_removal_monotone playerOrigin intersectAll [pickup0]).2.1,
   (c8_pickup_removal_monotone playerOrigin intersectAll [pickup0]).2.2.1 pickup0 rfl⟩

/-- C9: with an avatar present the Camera Follow Rule puts the camera at
the avatar position minus forward times the follow distance 10 with the
vertical component replaced by the constant height 5, aiming at the
avatar position; for an avatar at the origin facing +Z this is position
(0, 5, -10) and target (0, 0, 0). -/
theorem c9_camera_follow_rule (forwardOf : ℚ → Vec3) (p : Player) (cam cam2 : Camera) :
    updateCamera forwardOf (some p) cam =
      { position := ⟨(p.position.add ((forwardOf p.yaw).scale (-followDistance))).x,
                     cameraHeight,
                     (p.position.add ((forwardOf p.yaw).scale (-followDistance))).z⟩,
        target := p.position } ∧
    updateCamera forwardZ (some playerOrigin) cam2 =
      { position := ⟨0, 5, -10⟩, target := ⟨0, 0, 0⟩ } := by
  constructor
  · rfl
  · norm_num [updateCamera, forwardZ, playerOrigin, v0, Vec3.add, Vec3.scale,
      followDistance, cameraHeight]

/-- C10: the landing test has no velocity-sign check, so any integrator
frame whose collision move ends at height at most 0.1 grounds the avatar
and zeroes its vertical velocity even while it is moving upward; in
particular a jump pressed while grounded at the origin is cancelled by
the integrator of that very frame at dt = 1/100, since the upward
displacement 0.039019 stays below the threshold. -/
theorem c10_upward_landing_cancels_jump (moveResolve : Vec3 → Vec3 → Vec3) (dt : ℚ)
    (p : Player) (vel : Vec3)
    (hup : 0 < (velAfterGravity false vel dt).y)
    (hland : (moveResolve p.position ((velAfterGravity false vel dt).scale dt)).y ≤
      groundThreshold) :
    ((applyGravityAndJump moveResolve dt (some p) false vel).isGrounded = true ∧
     (applyGravityAndJump moveResolve dt (some p) false vel).velocity.y = 0) ∧
    ((frame forwardZ addMove noIntersect (1/100) keysJumpOnly stGroundedOrigin).isGrounded = true ∧
     (frame forwardZ addMove noIntersect (1/100) keysJumpOnly stGroundedOrigin).velocity.y = 0) := by
  constructor
  · simp [applyGravityAndJump, hland]
  · norm_num [frame, locomotionPhase, locomotionStep, updateCamera,
      applyGravityAndJump, updateGame, velAfterGravity, Vec3.add, Vec3.scale,
      stGroundedOrigin, keysJumpOnly, playerOrigin, forwardZ, addMove, noIntersect,
      v0, cam0, gravity, groundThreshold, jumpForce]

/-- C10, witness: an avatar already inside the threshold moving upward
against a blocking obstacle is re-grounded with its impulse zeroed. -/
theorem c10_upward_landing_cancels_jump_witness :
    ((applyGravityAndJump blockedMove (1/100) (some pLow) false velUp).isGrounded = true ∧
     (applyGravityAndJump blockedMove (1/100) (some pLow) false velUp).velocity.y = 0) ∧
    ((frame forwardZ addMove noIntersect (1/100) keysJumpOnly stGroundedOrigin).isGrounded = true ∧
     (frame forwardZ addMove noIntersect (1/100) keysJumpOnly stGroundedOrigin).velocity.y = 0) :=
  c10_upward_landing_cancels_jump blockedMove (1/100) pLow velUp
    (by norm_num [velAfterGravity, velUp, gravity, Vec3.add, Vec3.scale])
    (by norm_num [velAfterGravity, blockedMove, pLow, velUp, gravity, Vec3.add, Vec3.scale,
      groundThreshold])

end CoinCollector
